import Mathlib

/-!
# Verification of `zipcode-temperature-tracing`

Shallow embedding of the two Go services (`serviceA/cmd/main.go`,
`serviceB/cmd/main.go`) of the zipcode-temperature pipeline, and proofs
about the embedded code.

Network effects are modelled by passing each HTTP call's outcome in
explicitly (a `World` maps request URIs to outcomes); `context.Context`
is modelled by an explicit `Ctx` record carrying the active span context
and the cancellation scope; trace-id generation is a counter threaded
through `tracerStart`.  Temperatures (Go `float64`) are modelled as
rationals, so `1.8` denotes exactly `9/5`.
-/

set_option autoImplicit false

namespace ZipTrace

/-! ## ZipCode validator

`isValidZipCode` in both services is
`regexp.MustCompile(`^\d{8}$`).MatchString(zipCode)`.
The anchored pattern `\d{8}` is embedded as a matcher that consumes
exactly eight ASCII-digit characters and requires the end of the input.
-/

/-- Anchored matcher for the regular expression `\d{n}`: the character list
must consist of exactly `n` ASCII decimal digits. -/
def matchDigits : Nat → List Char → Bool
  | 0, [] => true
  | 0, _ :: _ => false
  | _ + 1, [] => false
  | n + 1, c :: cs => (('0' ≤ c) && (c ≤ '9')) && matchDigits n cs

/-- `isValidZipCode` from `serviceA/cmd/main.go` and `serviceB/cmd/main.go`:
`regexp.MustCompile ^\d{8}$ .MatchString(zipCode)`. -/
def isValidZipCode (zipCode : String) : Bool :=
  matchDigits 8 zipCode.data

/-! ## Response models (`serviceB/model`)

The `model` package is not in the sources; the two response shapes are
fixed upstream contracts.  `ZipCodeResponse.City` is the decoded
`localidade` field; `WeatherResponse.Current.TemperatureCelsius` is the
decoded `current.temp_c` field.  Go zero values are `""` and `0`.
-/

/-- `model.ZipCodeResponse`: the postal-code directory's response; only its
`City` (json `localidade`) field is read by serviceB. -/
structure ZipCodeResponse where
  city : String
  deriving Repr, DecidableEq

instance : Inhabited ZipCodeResponse := ⟨⟨""⟩⟩

/-- `model.WeatherResponse.Current`: current conditions of the weather
provider's response; only `temp_c` is read. -/
structure WeatherCurrent where
  temperatureCelsius : ℚ
  deriving Repr, DecidableEq

/-- `model.WeatherResponse`: the weather provider's response. -/
structure WeatherResponse where
  current : WeatherCurrent
  deriving Repr, DecidableEq

instance : Inhabited WeatherResponse := ⟨⟨⟨0⟩⟩⟩

/-- `model.Float64Marshal`.  Modelled from the spec: the `model` package is
not under the sources; per the spec the report's temperature fields are the
plain numeric values, so the marshalling wrapper is the identity on the
number it carries. -/
def Float64Marshal (x : ℚ) : ℚ := x

/-! ## The external lookup client (`makeHTTPRequest`)

`makeHTTPRequest[T](ctx, uri, method)` performs the network call and
decodes the body.  The network's behaviour for one call is modelled by a
`FetchOutcome T`: request construction may fail, the transport may fail,
or a response arrives with a status code and a body that decodes into `T`
or not.  Inner error texts (the `%w`-wrapped errors) are carried as
opaque strings. -/

/-- Result of `json.NewDecoder(resp.Body).Decode(&result)` on a response
body: either the decoded value or a decode failure with its message. -/
inductive DecodeResult (T : Type) where
  | ok (v : T)
  | malformed (msg : String)
  deriving Repr, DecidableEq

/-- Outcome of one outbound HTTP call attempt, as seen by
`makeHTTPRequest`. -/
inductive FetchOutcome (T : Type) where
  | createError (msg : String)
  | transportError (msg : String)
  | response (statusCode : Nat) (body : DecodeResult T)
  deriving Repr, DecidableEq

/-- A Go `(T, error, int)` triple: the value (zero value when an error is
returned), the error message if any, and the HTTP status code. -/
structure Result3 (T : Type) where
  value : T
  err : Option String
  status : Nat
  deriving Repr, DecidableEq

/-- `makeHTTPRequest[T]` from `serviceB/cmd/main.go`, as a function of the
call's network outcome: request-creation failure and transport failure are
500 errors; a response with status other than `http.StatusOK` (200) is an
error carrying that status; a 200 body that fails to decode is a 500
error; otherwise the decoded value with no error and status 200. -/
def makeHTTPRequest {T : Type} [Inhabited T] : FetchOutcome T → Result3 T
  | .createError m => ⟨default, some ("error creating request: " ++ m), 500⟩
  | .transportError m => ⟨default, some ("error sending request: " ++ m), 500⟩
  | .response code body =>
    if code ≠ 200 then
      ⟨default, some ("unexpected status code: " ++ toString code), code⟩
    else
      match body with
      | .malformed m => ⟨default, some ("error parsing response: " ++ m), 500⟩
      | .ok v => ⟨v, none, 200⟩

/-! ## The world: outcomes of external calls, process configuration -/

/-- An external HTTP call issued by serviceB, recorded with its URI:
either a postal-code directory lookup or a weather lookup. -/
inductive ExtCall where
  | zip (uri : String)
  | weather (uri : String)
  deriving Repr, DecidableEq

/-- Whether an external call is a weather-provider call. -/
def ExtCall.isWeatherCall : ExtCall → Bool
  | .zip _ => false
  | .weather _ => true

/-- The environment serviceB runs against: the network outcome of each
postal-code directory lookup and each weather lookup (keyed by request
URI), and the `API_KEY` environment variable. -/
structure World where
  zipFetch : String → FetchOutcome ZipCodeResponse
  weatherFetch : String → FetchOutcome WeatherResponse
  apiKey : String

/-- Percent-encoding of one byte as in Go's `net/url`: upper-case hex. -/
def percentEncodeByte (b : UInt8) : String :=
  let hexDigit : Nat → Char := fun n =>
    if n < 10 then Char.ofNat (48 + n) else Char.ofNat (55 + n)
  String.mk ['%', hexDigit (b.toNat / 16), hexDigit (b.toNat % 16)]

/-- `url.QueryEscape` from Go's `net/url`, used by `fetchWeather`: spaces
become `+`, unreserved bytes (alphanumerics and `-_.~`) stay, every other
byte of the UTF-8 encoding is percent-encoded. -/
def queryEscape (s : String) : String :=
  s.toUTF8.toList.foldl
    (fun acc b =>
      if b = 32 then acc ++ "+"
      else if (48 ≤ b && b ≤ 57) || (65 ≤ b && b ≤ 90) || (97 ≤ b && b ≤ 122)
          || b = 45 || b = 95 || b = 46 || b = 126 then
        acc.push (Char.ofNat b.toNat)
      else acc ++ percentEncodeByte b)
    ""

/-- The postal-code directory URI built by `fetchCityFromCEP`:
`fmt.Sprintf("https://viacep.com.br/ws/%s/json", cep)`. -/
def zipURI (cep : String) : String :=
  "https://viacep.com.br/ws/" ++ cep ++ "/json"

/-- The weather-provider URI built by `fetchWeather`:
`fmt.Sprintf(".../current.json?key=%s&q=%s&lang=pt", apiKey, encodedCity)`. -/
def weatherURI (apiKey city : String) : String :=
  "https://api.weatherapi.com/v1/current.json?key=" ++ apiKey
    ++ "&q=" ++ queryEscape city ++ "&lang=pt"

/-! ## City resolver (`fetchCityFromCEP`)

Embedded together with the list of external calls it issues, so that
"issues no external call" is a statement about the embedding. -/

/-- `fetchCityFromCEP` from `serviceB/cmd/main.go`, returning the Go
`(string, error, int)` triple together with the external calls issued:
re-validates the cep (422 `invalid zipcode` with no call when invalid),
otherwise performs the directory lookup, relays a client error, maps an
empty decoded city or a 404 client status to 404 `can not find zipcode`,
and otherwise returns the city with the client's status. -/
def fetchCityFromCEP (w : World) (cep : String) : Result3 String × List ExtCall :=
  if !isValidZipCode cep then
    (⟨"", some "invalid zipcode", 422⟩, [])
  else
    let uri := zipURI cep
    let r := makeHTTPRequest (w.zipFetch uri)
    match r.err with
    | some e => (⟨"", some e, r.status⟩, [.zip uri])
    | none =>
      if r.value.city = "" || r.status = 404 then
        (⟨"", some "can not find zipcode", 404⟩, [.zip uri])
      else
        (⟨r.value.city, none, r.status⟩, [.zip uri])

/-- `fetchWeather` from `serviceB/cmd/main.go`, returning the Go
`(float64, error, int)` triple together with the external calls issued:
an empty `API_KEY` is an immediate 400 `no API key set` with no call;
otherwise the weather lookup is performed, a client error is relayed, and
on success the current-conditions Celsius value is returned with the
client's status. -/
def fetchWeather (w : World) (city : String) : Result3 ℚ × List ExtCall :=
  if w.apiKey = "" then
    (⟨0, some "no API key set", 400⟩, [])
  else
    let uri := weatherURI w.apiKey city
    let r := makeHTTPRequest (w.weatherFetch uri)
    match r.err with
    | some e => (⟨0, some e, r.status⟩, [.weather uri])
    | none =>
      (⟨r.value.current.temperatureCelsius, none, r.status⟩, [.weather uri])

/-! ## Orchestrator handler (serviceB `handleRequest`) -/

/-- `model.TemperatureData`: the success payload written by serviceB. -/
structure TemperatureData where
  city : String
  celsius : ℚ
  fahrenheit : ℚ
  kelvin : ℚ
  deriving Repr, DecidableEq

/-- The body written by a handler: either the temperature report or the
JSON error envelope `map[string]string treating message` with its text. -/
inductive RespBody where
  | report (t : TemperatureData)
  | message (m : String)
  deriving Repr, DecidableEq

/-- An HTTP response as written by a handler: the status passed to
`WriteHeader` and the encoded body. -/
structure HttpOut where
  status : Nat
  body : RespBody
  deriving Repr, DecidableEq

/-- `handleRequest` from `serviceB/cmd/main.go` (the traced version), as a
function of the `cep` query parameter, returning the written response and
the external calls issued: resolves the city (on error, writes that
status and the error message), then the weather (likewise), and on
success writes status 200 with the `TemperatureData` computed as
`celsius`, `celsius*1.8+32`, `celsius+273`. -/
def handleRequestB (w : World) (cep : String) : HttpOut × List ExtCall :=
  let cr := fetchCityFromCEP w cep
  match cr.1.err with
  | some e => (⟨cr.1.status, .message e⟩, cr.2)
  | none =>
    let wr := fetchWeather w cr.1.value
    match wr.1.err with
    | some e => (⟨wr.1.status, .message e⟩, cr.2 ++ wr.2)
    | none =>
      let temperature := wr.1.value
      (⟨200, .report ⟨cr.1.value,
          Float64Marshal temperature,
          Float64Marshal (temperature * 1.8 + 32),
          Float64Marshal (temperature + 273)⟩⟩, cr.2 ++ wr.2)

/-! ## Trace context and cancellation model

`context.Context` is modelled as the pair of the active span context and
the cancellation scope of the inbound request the context derives from.
`tracer.Start` derives a child context (preserving the cancellation
scope) and consumes one fresh id from a counter; a root span (no span in
the context) gets the fresh id as its trace id, a child keeps the
parent's trace id.  `propagation.TraceContext.Inject` writes the active
span context into the outbound headers. -/

/-- An OpenTelemetry span context: the identifiers of a span. -/
structure SpanContext where
  traceId : Nat
  spanId : Nat
  deriving Repr, DecidableEq

/-- A Go `context.Context`: the active span, and the cancellation scope
(the inbound request whose cancellation the context is bound to). -/
structure Ctx where
  spanCtx : Option SpanContext
  cancelScope : Option Nat
  deriving Repr, DecidableEq

/-- `context.Background()`: no span, bound to no request's cancellation. -/
def Ctx.background : Ctx := ⟨none, none⟩

/-- `tracer.Start(ctx, name)`: returns the derived context and the new
span's context, consuming one fresh id.  With a parent span in `ctx` the
new span keeps the parent's trace id; otherwise it starts a new root
trace whose trace id is the fresh id.  Deriving preserves the
cancellation scope. -/
def tracerStart (ctx : Ctx) (st : Nat) : Ctx × SpanContext × Nat :=
  match ctx.spanCtx with
  | some parent =>
    let sc : SpanContext := ⟨parent.traceId, st⟩
    (⟨some sc, ctx.cancelScope⟩, sc, st + 1)
  | none =>
    let sc : SpanContext := ⟨st, st⟩
    (⟨some sc, ctx.cancelScope⟩, sc, st + 1)

/-- `otel.GetTextMapPropagator().Inject(ctx, headers)`: the outbound
`traceparent` header carries the active span context. -/
def injectHeaders (ctx : Ctx) : Option SpanContext := ctx.spanCtx

/-- Trace- and context-relevant result of serviceA handling one inbound
request and forwarding it to serviceB. -/
structure ServiceARun where
  /-- Span of `handleRequest-sa`, serviceA's top-level span. -/
  topSpan : SpanContext
  /-- Span of `sendRequestToB`. -/
  clientSpan : SpanContext
  /-- The context given to `http.NewRequestWithContext` for the forward. -/
  outboundCtx : Ctx
  /-- The injected outbound headers. -/
  headers : Option SpanContext
  /-- The id counter after the run. -/
  st : Nat
  deriving Repr, DecidableEq

/-- serviceA's `handleRequest` and `sendRequestToB`
(`serviceA/cmd/main.go`), trace and context aspects: the handler starts
`handleRequest-sa` on the inbound request's context, `sendRequestToB`
starts a child span, creates the outbound request with that derived
context, and injects the active span context into the outbound headers. -/
def serviceA_run (inbound : Ctx) (st0 : Nat) : ServiceARun :=
  let (hctx, topSpan, st1) := tracerStart inbound st0
  let (bctx, clientSpan, st2) := tracerStart hctx st1
  ⟨topSpan, clientSpan, bctx, injectHeaders bctx, st2⟩

/-- Trace- and context-relevant result of serviceB handling one inbound
request. -/
structure ServiceBRun where
  /-- Span of serviceB's `handleRequest`. -/
  handlerSpan : SpanContext
  /-- Span of `fetchCityFromCEP`. -/
  citySpan : SpanContext
  /-- The context both resolvers pass to `makeHTTPRequest`
  (`http.NewRequestWithContext`). -/
  lookupCtx : Ctx
  /-- The id counter after the run. -/
  st : Nat
  deriving Repr, DecidableEq

/-- serviceB's `main` and `handleRequest` (`serviceB/cmd/main.go`), trace
and context aspects.  `main` registers
`handleRequest(w, r.WithContext(ctx))` with `ctx := context.Background()`,
so the handler sees the background context in place of the inbound
request's context; no propagator is installed and the inbound headers are
never read.  `handleRequest` starts `handleRequest` on `r.Context()`,
`fetchCityFromCEP` starts its span (discarding the returned context) and
passes the handler's context to `makeHTTPRequest`. -/
def serviceB_run (inbound : Ctx) (inboundHeaders : Option SpanContext) (st0 : Nat) :
    ServiceBRun :=
  let rctx := Ctx.background
  let (hctx, handlerSpan, st1) := tracerStart rctx st0
  let (_, citySpan, st2) := tracerStart hctx st1
  ⟨handlerSpan, citySpan, hctx, st2⟩

/-! ## Concrete worlds used as witnesses -/

/-- A world where the directory resolves every cep to `São Paulo`, the
weather provider reports 28.5 °C, and an API key is configured. -/
def wGood : World where
  zipFetch := fun _ => .response 200 (.ok ⟨"São Paulo"⟩)
  weatherFetch := fun _ => .response 200 (.ok ⟨⟨28.5⟩⟩)
  apiKey := "k"

/-- A world like `wGood` but with no API key configured. -/
def wNoKey : World where
  zipFetch := fun _ => .response 200 (.ok ⟨"São Paulo"⟩)
  weatherFetch := fun _ => .response 200 (.ok ⟨⟨28.5⟩⟩)
  apiKey := ""

/-! ## Theorems -/

theorem matchDigits_iff (n : Nat) (l : List Char) :
    matchDigits n l = true ↔ l.length = n ∧ ∀ c ∈ l, c.isDigit = true := by
  induction l generalizing n with
  | nil => cases n <;> simp [matchDigits]
  | cons c cs ih =>
    cases n with
    | zero => simp [matchDigits]
    | succ n =>
      simp only [matchDigits, Bool.and_eq_true, decide_eq_true_eq, ih n,
        List.length_cons, Nat.succ.injEq, List.mem_cons, forall_eq_or_imp,
        Char.isDigit, ge_iff_le]
      constructor
      · rintro ⟨⟨h0, h9⟩, hlen, hall⟩
        exact ⟨hlen, ⟨h0, h9⟩, hall⟩
      · rintro ⟨hlen, ⟨h0, h9⟩, hall⟩
        exact ⟨⟨h0, h9⟩, hlen, hall⟩

/-- C3: `isValidZipCode s` is true exactly when `s` has length 8 and every
character of `s` is a decimal digit — the anchored pattern admits no
leading or trailing characters and no separators. -/
theorem isValidZipCode_iff (s : String) :
    isValidZipCode s = true ↔ s.length = 8 ∧ ∀ c ∈ s.data, c.isDigit = true :=
  matchDigits_iff 8 s.data

/-- Witness for C3 at the spec's positive example. -/
theorem isValidZipCode_iff_witness :
    isValidZipCode "29902555" = true :=
  (isValidZipCode_iff "29902555").mpr (by decide)

/-- C4, counterexample: a 201 response — a 2xx status — with a perfectly
decodable body is still turned into an error by `makeHTTPRequest`,
because the code compares against `http.StatusOK` (200), not against the
2xx class. -/
theorem makeHTTPRequest_201_is_error :
    (makeHTTPRequest (T := ZipCodeResponse) (.response 201 (.ok ⟨"X"⟩))).err ≠ none
      ∧ (makeHTTPRequest (T := ZipCodeResponse) (.response 201 (.ok ⟨"X"⟩))).status = 201 := by
  decide

/-- C4 (amended): `makeHTTPRequest` surfaces any response whose status is
not exactly 200 as an error carrying the original upstream status code
verbatim, surfaces a 200 body that fails to decode as an error with
status 500, and surfaces request-creation and transport failures as
errors with status 500; a 200 response never becomes an error for its
status alone. -/
theorem makeHTTPRequest_status_contract {T : Type} [Inhabited T]
    (code : Nat) (body : DecodeResult T) (m : String) :
    (code ≠ 200 → makeHTTPRequest (.response code body) =
      ⟨(default : T), some ("unexpected status code: " ++ toString code), code⟩)
    ∧ makeHTTPRequest (T := T) (.transportError m) =
      ⟨default, some ("error sending request: " ++ m), 500⟩
    ∧ makeHTTPRequest (T := T) (.createError m) =
      ⟨default, some ("error creating request: " ++ m), 500⟩
    ∧ makeHTTPRequest (.response 200 (.malformed m)) =
      ⟨(default : T), some ("error parsing response: " ++ m), 500⟩
    ∧ ∀ v : T, makeHTTPRequest (.response 200 (.ok v)) = ⟨v, none, 200⟩ := by
  refine ⟨fun h => ?_, rfl, rfl, rfl, fun v => rfl⟩
  simp [makeHTTPRequest, h]

/-- Witness for C4's amended contract at status 404. -/
theorem makeHTTPRequest_status_contract_witness :
    makeHTTPRequest (T := ZipCodeResponse) (.response 404 (.ok ⟨"X"⟩)) =
      ⟨⟨""⟩, some ("unexpected status code: " ++ toString (404 : Nat)), 404⟩ :=
  (makeHTTPRequest_status_contract 404 (.ok ⟨"X"⟩) "m").1 (by decide)

/-- C6: for a `cep` that is not exactly 8 decimal digits,
`fetchCityFromCEP` returns the empty city, the error `invalid zipcode`
and status 422, and issues no external call. -/
theorem fetchCityFromCEP_invalid_zipcode (w : World) (cep : String)
    (h : isValidZipCode cep = false) :
    fetchCityFromCEP w cep = (⟨"", some "invalid zipcode", 422⟩, []) := by
  simp [fetchCityFromCEP, h]

/-- Witness for C6 at the spec's malformed example `123`. -/
theorem fetchCityFromCEP_invalid_zipcode_witness :
    fetchCityFromCEP wGood "123" = (⟨"", some "invalid zipcode", 422⟩, []) :=
  fetchCityFromCEP_invalid_zipcode wGood "123" (by decide)

/-- C7: with an empty API credential, `fetchWeather` returns temperature
0, the error `no API key set` and status 400, and issues no external
call, for every city. -/
theorem fetchWeather_no_api_key (w : World) (city : String)
    (h : w.apiKey = "") :
    fetchWeather w city = (⟨0, some "no API key set", 400⟩, []) := by
  simp [fetchWeather, h]

/-- Witness for C7 in the key-less world. -/
theorem fetchWeather_no_api_key_witness :
    fetchWeather wNoKey "São Paulo" = (⟨0, some "no API key set", 400⟩, []) :=
  fetchWeather_no_api_key wNoKey "São Paulo" rfl

theorem makeHTTPRequest_err_none_status {T : Type} [Inhabited T]
    (o : FetchOutcome T) (h : (makeHTTPRequest o).err = none) :
    (makeHTTPRequest o).status = 200 := by
  cases o with
  | createError m => simp [makeHTTPRequest] at h
  | transportError m => simp [makeHTTPRequest] at h
  | response code body =>
    by_cases hc : code = 200
    · subst hc
      cases body with
      | malformed m => simp [makeHTTPRequest] at h
      | ok v => simp [makeHTTPRequest]
    · simp [makeHTTPRequest, hc] at h

/-- C10: whenever `fetchCityFromCEP` or `fetchWeather` returns no error,
the status it returns is exactly 200 — the relayed "upstream-success
status" can never differ from 200, because `makeHTTPRequest` returns a
nil error only together with status 200. -/
theorem resolver_nil_error_status_200 (w : World) (cep city : String) :
    ((fetchCityFromCEP w cep).1.err = none → (fetchCityFromCEP w cep).1.status = 200)
    ∧ ((fetchWeather w city).1.err = none → (fetchWeather w city).1.status = 200) := by
  constructor
  · intro h
    cases hv : isValidZipCode cep with
    | false => simp [fetchCityFromCEP, hv] at h
    | true =>
      rcases he : (makeHTTPRequest (w.zipFetch (zipURI cep))).err with _ | e
      · have h200 := makeHTTPRequest_err_none_status _ he
        by_cases hcity : (makeHTTPRequest (w.zipFetch (zipURI cep))).value.city = ""
        · simp [fetchCityFromCEP, hv, he, hcity] at h
        · simp [fetchCityFromCEP, hv, he, hcity, h200]
      · simp [fetchCityFromCEP, hv, he] at h
  · intro h
    by_cases hk : w.apiKey = ""
    · simp [fetchWeather, hk] at h
    · rcases he : (makeHTTPRequest (w.weatherFetch (weatherURI w.apiKey city))).err with _ | e
      · have h200 := makeHTTPRequest_err_none_status _ he
        simp [fetchWeather, hk, he, h200]
      · simp [fetchWeather, hk, he] at h

/-- Witness for C10 in the benign world. -/
theorem resolver_nil_error_status_200_witness :
    (fetchCityFromCEP wGood "01001000").1.status = 200
      ∧ (fetchWeather wGood "São Paulo").1.status = 200 :=
  ⟨(resolver_nil_error_status_200 wGood "01001000" "São Paulo").1 (by decide),
   (resolver_nil_error_status_200 wGood "01001000" "São Paulo").2 (by decide)⟩

/-- C5: for a valid `cep` whose directory lookup succeeds at the client
level, an empty decoded city field or a 404 client status yields the
empty city, the error `can not find zipcode` and status 404; otherwise
the decoded city name, no error, and the client's success status are
returned. -/
theorem fetchCityFromCEP_domain_mapping (w : World) (cep : String)
    (hv : isValidZipCode cep = true)
    (hok : (makeHTTPRequest (w.zipFetch (zipURI cep))).err = none) :
    ((makeHTTPRequest (w.zipFetch (zipURI cep))).value.city = ""
        ∨ (makeHTTPRequest (w.zipFetch (zipURI cep))).status = 404 →
      fetchCityFromCEP w cep =
        (⟨"", some "can not find zipcode", 404⟩, [.zip (zipURI cep)]))
    ∧ ((makeHTTPRequest (w.zipFetch (zipURI cep))).value.city ≠ ""
        ∧ (makeHTTPRequest (w.zipFetch (zipURI cep))).status ≠ 404 →
      fetchCityFromCEP w cep =
        (⟨(makeHTTPRequest (w.zipFetch (zipURI cep))).value.city, none,
          (makeHTTPRequest (w.zipFetch (zipURI cep))).status⟩, [.zip (zipURI cep)])) := by
  constructor
  · rintro (hc | hs)
    · simp [fetchCityFromCEP, hv, hok, hc]
    · simp [fetchCityFromCEP, hv, hok, hs]
  · rintro ⟨hc, hs⟩
    simp [fetchCityFromCEP, hv, hok, hc, hs]

/-- Witness for C5 in the benign world. -/
theorem fetchCityFromCEP_domain_mapping_witness :
    fetchCityFromCEP wGood "01001000" =
      (⟨"São Paulo", none, 200⟩, [.zip (zipURI "01001000")]) :=
  (fetchCityFromCEP_domain_mapping wGood "01001000" (by decide) (by decide)).2
    (by decide)

theorem fetchCityFromCEP_calls (w : World) (cep : String) :
    (fetchCityFromCEP w cep).2 = []
      ∨ (fetchCityFromCEP w cep).2 = [ExtCall.zip (zipURI cep)] := by
  simp only [fetchCityFromCEP]
  split
  · exact Or.inl rfl
  · split
    · exact Or.inr rfl
    · split
      · exact Or.inr rfl
      · exact Or.inr rfl

/-- C8: if both resolvers succeed, serviceB's `handleRequest` writes
status exactly 200 and the `TemperatureData` report; on a city-resolver
failure it short-circuits with that step's status and the JSON message
body without issuing any weather call; on a weather-resolver failure it
responds with that step's status and the JSON message body. -/
theorem handleRequestB_contract (w : World) (cep : String) :
    ((fetchCityFromCEP w cep).1.err = none →
      (fetchWeather w (fetchCityFromCEP w cep).1.value).1.err = none →
      handleRequestB w cep =
        (⟨200, .report ⟨(fetchCityFromCEP w cep).1.value,
            (fetchWeather w (fetchCityFromCEP w cep).1.value).1.value,
            (fetchWeather w (fetchCityFromCEP w cep).1.value).1.value * 1.8 + 32,
            (fetchWeather w (fetchCityFromCEP w cep).1.value).1.value + 273⟩⟩,
          (fetchCityFromCEP w cep).2
            ++ (fetchWeather w (fetchCityFromCEP w cep).1.value).2))
    ∧ (∀ e, (fetchCityFromCEP w cep).1.err = some e →
        handleRequestB w cep =
          (⟨(fetchCityFromCEP w cep).1.status, .message e⟩, (fetchCityFromCEP w cep).2)
        ∧ ∀ c ∈ (handleRequestB w cep).2, c.isWeatherCall = false)
    ∧ (∀ e, (fetchCityFromCEP w cep).1.err = none →
        (fetchWeather w (fetchCityFromCEP w cep).1.value).1.err = some e →
        handleRequestB w cep =
          (⟨(fetchWeather w (fetchCityFromCEP w cep).1.value).1.status, .message e⟩,
            (fetchCityFromCEP w cep).2
              ++ (fetchWeather w (fetchCityFromCEP w cep).1.value).2)) := by
  refine ⟨fun h1 h2 => ?_, fun e he => ?_, fun e h1 h2 => ?_⟩
  · simp [handleRequestB, h1, h2, Float64Marshal]
  · have hh : handleRequestB w cep =
        (⟨(fetchCityFromCEP w cep).1.status, .message e⟩, (fetchCityFromCEP w cep).2) := by
      simp [handleRequestB, he]
    refine ⟨hh, ?_⟩
    rw [hh]
    intro c hc
    rcases fetchCityFromCEP_calls w cep with hcalls | hcalls <;> rw [hcalls] at hc
    · simp at hc
    · simp at hc
      subst hc
      rfl
  · simp [handleRequestB, h1, h2]

/-- Witness for C8 at the spec's end-to-end success scenario. -/
theorem handleRequestB_contract_witness :
    handleRequestB wGood "01001000" =
      (⟨200, .report ⟨"São Paulo", 28.5, 83.3, 301.5⟩⟩,
        [.zip (zipURI "01001000"), .weather (weatherURI "k" "São Paulo")]) := by
  have h := (handleRequestB_contract wGood "01001000").1 (by decide) (by decide)
  rw [h]
  show ((⟨200, RespBody.report ⟨"São Paulo", 28.5, 28.5 * 1.8 + 32, 28.5 + 273⟩⟩ : HttpOut),
        [ExtCall.zip (zipURI "01001000"), ExtCall.weather (weatherURI "k" "São Paulo")])
      = ((⟨200, RespBody.report ⟨"São Paulo", 28.5, 83.3, 301.5⟩⟩ : HttpOut),
        [ExtCall.zip (zipURI "01001000"), ExtCall.weather (weatherURI "k" "São Paulo")])
  rw [show (28.5 : ℚ) * 1.8 + 32 = 83.3 by norm_num,
      show (28.5 : ℚ) + 273 = 301.5 by norm_num]

/-- C9: every `TemperatureData` report written by serviceB's
`handleRequest` satisfies `fahrenheit = celsius * 1.8 + 32` and
`kelvin = celsius + 273` exactly, and its `celsius` field is the value
returned by the weather resolver. -/
theorem temperature_report_conversions (w : World) (cep : String) (t : TemperatureData)
    (h : (handleRequestB w cep).1.body = .report t) :
    t.fahrenheit = t.celsius * 1.8 + 32 ∧ t.kelvin = t.celsius + 273
      ∧ t.celsius = (fetchWeather w (fetchCityFromCEP w cep).1.value).1.value := by
  rcases hc : (fetchCityFromCEP w cep).1.err with _ | e
  · rcases hw : (fetchWeather w (fetchCityFromCEP w cep).1.value).1.err with _ | e
    · have hh : (handleRequestB w cep).1.body =
          .report ⟨(fetchCityFromCEP w cep).1.value,
            (fetchWeather w (fetchCityFromCEP w cep).1.value).1.value,
            (fetchWeather w (fetchCityFromCEP w cep).1.value).1.value * 1.8 + 32,
            (fetchWeather w (fetchCityFromCEP w cep).1.value).1.value + 273⟩ := by
        simp [handleRequestB, hc, hw, Float64Marshal]
      rw [hh] at h
      have ht := (RespBody.report.injEq _ _).mp h
      subst ht
      exact ⟨rfl, rfl, rfl⟩
    · simp [handleRequestB, hc, hw] at h
  · simp [handleRequestB, hc] at h

/-- Witness for C9 at the spec's example: 28.5 °C, 83.3 °F, 301.5 K. -/
theorem temperature_report_conversions_witness :
    (83.3 : ℚ) = 28.5 * 1.8 + 32 ∧ (301.5 : ℚ) = 28.5 + 273
      ∧ (28.5 : ℚ) = (fetchWeather wGood (fetchCityFromCEP wGood "01001000").1.value).1.value :=
  temperature_report_conversions wGood "01001000" ⟨"São Paulo", 28.5, 83.3, 301.5⟩
    (by
      rw [show (83.3 : ℚ) = 28.5 * 1.8 + 32 by norm_num,
        show (301.5 : ℚ) = 28.5 + 273 by norm_num]
      rfl)

/-- C1: contrary to the claim, the trace context injected by serviceA is
never extracted by serviceB — serviceB's run is definitionally
independent of the inbound headers (its `main` substitutes
`context.Background()` for the request context and installs no
propagator), so after a successful end-to-end request serviceA's
outbound headers carry its top-level span's trace id while the span
serviceB records for resolving the city carries a different, fresh
trace id: serviceB starts a new root trace. -/
theorem orchestrator_span_not_in_ingress_trace :
    (∀ inbound h1 h2 st, serviceB_run inbound h1 st = serviceB_run inbound h2 st)
    ∧ (serviceA_run Ctx.background 0).headers =
        some ⟨(serviceA_run Ctx.background 0).topSpan.traceId,
              (serviceA_run Ctx.background 0).clientSpan.spanId⟩
    ∧ (serviceB_run ⟨none, some 0⟩ (serviceA_run Ctx.background 0).headers
          (serviceA_run Ctx.background 0).st).citySpan.traceId ≠
        (serviceA_run Ctx.background 0).topSpan.traceId :=
  ⟨fun _ _ _ _ => rfl, by decide, by decide⟩

/-- C2, counterexample: for an inbound serviceB request bound to
cancellation scope 7, the context under which both outbound lookups are
created carries no cancellation scope at all — it derives from
`context.Background()`, not from the inbound request's context, so
cancelling the inbound request does not abort the lookups. -/
theorem orchestrator_lookup_ctx_not_bound_to_inbound :
    (serviceB_run ⟨none, some 7⟩ none 0).lookupCtx.cancelScope ≠
      (⟨none, some 7⟩ : Ctx).cancelScope := by
  decide

/-- C2 (amended): in serviceA the outbound forward to serviceB is created
with a context derived from the inbound request's context — it carries
the inbound cancellation scope — but in serviceB both outbound lookups
are created with a context derived from `context.Background()`
(substituted by `main`'s `r.WithContext` wrap), carrying no cancellation
scope, so inbound cancellation does not propagate to serviceB's
outbound calls. -/
theorem outbound_ctx_cancellation :
    (∀ inbound st, (serviceA_run inbound st).outboundCtx.cancelScope = inbound.cancelScope)
    ∧ (∀ inbound headers st,
        (serviceB_run inbound headers st).lookupCtx.cancelScope = none) := by
  constructor
  · intro inbound st
    rcases inbound with ⟨_ | sc, cs⟩ <;> rfl
  · intro inbound headers st
    rfl

end ZipTrace
